import Mathlib

/-!
Verification of the N-body simulation engine in `n-body.py`.

The engine keeps per-body state in global arrays indexed by body number and
advances it with three procedures (`findCurrentAcc`, `findNextLoc`,
`findNextVel`) driven by `Run`.  We embed the numeric state over `ℝ`
(`float64` is modelled by exact reals), arrays over a fixed body count by
total functions `ℕ → _`, and the NumPy vector operations componentwise on
triples of reals.  The module-level constants of the script (`N`, `Gm`, `GM`,
`dt`, `SmallDiam`, `VelDecreaseFactor`, `LargeRadius`, `HeavyMassLoc`,
`Vel0`) are collected in a `Params` record so that theorems can quantify
over them; the script's concrete values instantiate it.
-/

namespace NBody

/-- A 3-vector, as NumPy's length-3 float arrays: `(x, y, z)`. -/
abbrev Vec3 : Type := ℝ × ℝ × ℝ

/-- `np.linalg.norm(v) ** 3`: the Euclidean norm of `v`, cubed. -/
noncomputable def norm3 (v : Vec3) : ℝ :=
  Real.sqrt (v.1 ^ 2 + v.2.1 ^ 2 + v.2.2 ^ 2) ^ 3

/-- `np.divide(v, c)`: componentwise division of a vector by a scalar. -/
noncomputable def divV (v : Vec3) (c : ℝ) : Vec3 :=
  (v.1 / c, v.2.1 / c, v.2.2 / c)

/-- The module-level simulation constants of `n-body.py` (lines 39-64). -/
structure Params where
  N : ℕ
  Gm : ℝ
  GM : ℝ
  dt : ℝ
  SmallDiam : ℝ
  VelDecreaseFactor : ℝ
  LargeRadius : ℝ
  HeavyMassLoc : Vec3
  Vel0 : ℝ

/-- The mutable global state arrays of `n-body.py` (lines 40-41, 59-63).
In the script `isInContact` and `hasFallen` are float arrays holding `1` or
`0`; we model them as `Bool` arrays (`true` is `1`). -/
structure State where
  AccRad : ℕ → Vec3
  AccInt : ℕ → Vec3
  Loc : ℕ → Vec3
  VelRad : ℕ → Vec3
  VelInt : ℕ → Vec3
  isInContact : ℕ → Bool
  hasFallen : ℕ → Bool

/-- One iteration of the inner pairwise loop of `findCurrentAcc`
(lines 105-112): the running state is the pair
(current `isInContact[i]` flag, running sum `r_Abs_r3`). -/
noncomputable def scanStep (p : Params) (L : ℕ → Vec3) (i : ℕ)
    (st : Bool × Vec3) (j : ℕ) : Bool × Vec3 :=
  if j ≠ i then
    let r : Vec3 := L j - L i
    let Abs_r3 : ℝ := norm3 r
    if Abs_r3 < p.SmallDiam ^ 3 then (true, st.2)
    else (st.1, st.2 + divV r (0.001 * Abs_r3))
  else st

/-- The whole inner loop `for j in range(0, N-1)` of `findCurrentAcc`,
starting from the reset contact flag (line 96) and the zero accumulator
(line 94). -/
noncomputable def scanBodies (p : Params) (L : ℕ → Vec3) (i : ℕ) : Bool × Vec3 :=
  (List.range (p.N - 1)).foldl (scanStep p L i) (false, 0)

/-- `findCurrentAcc(i)` (lines 92-118).  The resets of `isInContact[i]` and
`hasFallen[i]` (lines 96-97) are folded into the final per-branch values:
on the outer branch the contact flag is whatever the pairwise scan (started
from `false`) produced and `hasFallen[i]` stays `false`; on the fallen
branch the contact flag stays at its reset value `false` and
`hasFallen[i]` is set (line 115).  `AccRad[:,i] = GM * R_Abs_R3 * 0.001`
(line 103) and `AccInt[:,i] = Gm * r_Abs_r3 * 0.001` (line 113) are the
scalar multiples written `0.001 • (GM • v)`. -/
noncomputable def findCurrentAcc (p : Params) (s : State) (i : ℕ) : State :=
  let R : Vec3 := p.HeavyMassLoc - s.Loc i
  let Abs_R3 : ℝ := norm3 R
  if Abs_R3 ≥ p.LargeRadius ^ 3 then
    let R_Abs_R3 : Vec3 := divV R (0.001 * Abs_R3)
    let scan : Bool × Vec3 := scanBodies p s.Loc i
    { s with
      AccRad := Function.update s.AccRad i ((0.001 : ℝ) • (p.GM • R_Abs_R3)),
      AccInt := Function.update s.AccInt i ((0.001 : ℝ) • (p.Gm • scan.2)),
      isInContact := Function.update s.isInContact i scan.1,
      hasFallen := Function.update s.hasFallen i false }
  else
    { s with
      AccRad := Function.update s.AccRad i 0,
      AccInt := Function.update s.AccInt i 0,
      isInContact := Function.update s.isInContact i false,
      hasFallen := Function.update s.hasFallen i true }

/-- `findNextVel(i)` (lines 122-126). -/
noncomputable def findNextVel (p : Params) (s : State) (i : ℕ) : State :=
  let vr : Vec3 := s.VelRad i + p.dt • s.AccRad i
  let vi0 : Vec3 := s.VelInt i + p.dt • s.AccInt i
  let vi : Vec3 := if s.isInContact i = true then p.VelDecreaseFactor • vi0 else vi0
  { s with
    VelRad := Function.update s.VelRad i vr,
    VelInt := Function.update s.VelInt i vi }

/-- `findNextLoc(i)` (lines 131-133). -/
noncomputable def findNextLoc (p : Params) (s : State) (i : ℕ) : State :=
  { s with
    Loc := Function.update s.Loc i
      (s.Loc i + p.dt • (s.VelRad i + s.VelInt i)
        + (0.5 * p.dt ^ 2) • (s.AccRad i + s.AccInt i)) }

/-- The per-body block of the driver loop (lines 140-143): if body `i` is
still in space, find the current acceleration, then the next position, then
the next velocity, in exactly that order. -/
noncomputable def stepBody (p : Params) (s : State) (i : ℕ) : State :=
  if s.hasFallen i = false then
    findNextVel p (findNextLoc p (findCurrentAcc p s i) i) i
  else s

/-- One frame of the driver: `for i in range(N-1)` (line 139). -/
noncomputable def frameStep (p : Params) (s : State) : State :=
  (List.range (p.N - 1)).foldl (stepBody p) s

/-- The state after `k` whole frames of the driver loop. -/
noncomputable def stateAfter (p : Params) (s : State) : ℕ → State
  | 0 => s
  | k + 1 => frameStep p (stateAfter p s k)

/-- The value returned by a run: the final state together with the
`TimeSeries` buffer.  The buffer `TimeSeries[:, i, t]` of the script is
indexed here as `TimeSeries t i : Vec3`; it starts as `np.zeros` (line 56),
modelled by the all-zero function. -/
structure RunResult where
  state : State
  TimeSeries : ℕ → ℕ → Vec3

/-- One iteration of the outer loop of `Run` (lines 138-144): update all
bodies for the frame, then snapshot every body's position into column
`t` (`TimeSeries[:,:,t] = Loc[:,:]`). -/
noncomputable def runStep (p : Params) (acc : RunResult) (t : ℕ) : RunResult :=
  ⟨frameStep p acc.state,
    Function.update acc.TimeSeries t (fun i => (frameStep p acc.state).Loc i)⟩

/-- `Run(dtCount)` (lines 137-145): `for t in range(dtCount-1)`, update all
bodies, then snapshot every body's position into column `t`. -/
noncomputable def Run (p : Params) (s : State) (dtCount : ℕ) : RunResult :=
  (List.range (dtCount - 1)).foldl (runStep p) ⟨s, fun _ _ => 0⟩

/-- `initialiseStates()` (lines 76-88).  The script builds three coordinate
lists and shuffles them; the shuffled lists are taken here as the
parameters `x y z` (an arbitrary result of the shuffle).  Indexing `x[i]`
past the end of a list raises an `IndexError` in Python, modelled by
`none`; the function performs no other validation of the parameters. -/
noncomputable def initialiseStates (p : Params) (x y z : List ℤ) (s : State) :
    Option State :=
  (List.range (p.N - 1)).foldlM
    (fun st i =>
      match x.get? i, y.get? i, z.get? i with
      | some a, some b, some c =>
          some { st with
            Loc := Function.update st.Loc i ((a : ℝ), (b : ℝ), (c : ℝ)),
            VelRad := Function.update st.VelRad i (0, p.Vel0, 0),
            VelInt := Function.update st.VelInt i (0, 0, 0) }
      | _, _, _ => none)
    s

/-- `saveNewSim(name)` (lines 172-175): the time series is written as three
two-dimensional tables, one per axis, with rows indexed by body and columns
by frame.  The plain-text encoding of `np.savetxt` is abstracted away: a
saved file is its table of numbers. -/
noncomputable def saveNewSim (ts : ℕ → ℕ → Vec3) :
    (ℕ → ℕ → ℝ) × (ℕ → ℕ → ℝ) × (ℕ → ℕ → ℝ) :=
  (fun i t => (ts t i).1, fun i t => (ts t i).2.1, fun i t => (ts t i).2.2)

/-- The buffer rebuilt by `loadSavedSim(name, n, dtcount, ...)`
(lines 179-183): a fresh `np.zeros([3, n, dtcount])` whose in-range entries
are filled from the three per-axis tables. -/
noncomputable def loadSavedSim (fX fY fZ : ℕ → ℕ → ℝ) (n dtcount : ℕ) : ℕ → ℕ → Vec3 :=
  fun t i => if i < n ∧ t < dtcount then (fX i t, fY i t, fZ i t) else 0

/-- `np.divide(v, c)` instrumented to report a zero denominator. -/
noncomputable def divVD (v : Vec3) (c : ℝ) : Option Vec3 :=
  if c = 0 then none else some (divV v c)

/-- `scanStep` instrumented so that a division by a zero denominator in the
pairwise term yields `none`. -/
noncomputable def scanStepD (p : Params) (L : ℕ → Vec3) (i : ℕ)
    (st : Option (Bool × Vec3)) (j : ℕ) : Option (Bool × Vec3) :=
  st.bind fun st =>
    if j ≠ i then
      let r : Vec3 := L j - L i
      let Abs_r3 : ℝ := norm3 r
      if Abs_r3 < p.SmallDiam ^ 3 then some (true, st.2)
      else (divVD r (0.001 * Abs_r3)).map fun d => (st.1, st.2 + d)
    else some st

/-- `findCurrentAcc` instrumented so that any division by a zero
denominator (central term or pairwise term) yields `none`; on inputs where
every denominator is nonzero it returns `some` of the plain result. -/
noncomputable def findCurrentAccD (p : Params) (s : State) (i : ℕ) : Option State :=
  let R : Vec3 := p.HeavyMassLoc - s.Loc i
  let Abs_R3 : ℝ := norm3 R
  if Abs_R3 ≥ p.LargeRadius ^ 3 then
    (divVD R (0.001 * Abs_R3)).bind fun R_Abs_R3 =>
      ((List.range (p.N - 1)).foldl (scanStepD p s.Loc i) (some (false, 0))).map
        fun scan =>
          { s with
            AccRad := Function.update s.AccRad i ((0.001 : ℝ) • (p.GM • R_Abs_R3)),
            AccInt := Function.update s.AccInt i ((0.001 : ℝ) • (p.Gm • scan.2)),
            isInContact := Function.update s.isInContact i scan.1,
            hasFallen := Function.update s.hasFallen i false }
  else
    some
      { s with
        AccRad := Function.update s.AccRad i 0,
        AccInt := Function.update s.AccInt i 0,
        isInContact := Function.update s.isInContact i false,
        hasFallen := Function.update s.hasFallen i true }

/-- The two-phase reference frame step described by the specification's
stage-barrier requirement: first the force pass for every body that was
active at the start of the frame, all of it reading the frame-start
positions (the force pass never writes positions, so folding it body by
body reads only frame-start positions), and only then the integration pass
for those same bodies. -/
noncomputable def twoPhaseFrameStep (p : Params) (s : State) : State :=
  let s1 :=
    (List.range (p.N - 1)).foldl
      (fun st i => if s.hasFallen i = false then findCurrentAcc p st i else st) s
  (List.range (p.N - 1)).foldl
    (fun st i =>
      if s.hasFallen i = false then findNextVel p (findNextLoc p st i) i else st)
    s1

/-- The per-body slots of the state arrays: position, the two velocity
components, the two acceleration components, and the two flags of body
`i`. -/
def slots (s : State) (i : ℕ) : Vec3 × Vec3 × Vec3 × Vec3 × Vec3 × Bool × Bool :=
  (s.Loc i, s.VelRad i, s.VelInt i, s.AccRad i, s.AccInt i,
    s.isInContact i, s.hasFallen i)

/-! Concrete parameter/state instances used to exercise the model on small
inputs.  Fields of `Params` are in order `N, Gm, GM, dt, SmallDiam,
VelDecreaseFactor, LargeRadius, HeavyMassLoc, Vel0`; fields of `State` are
in order `AccRad, AccInt, Loc, VelRad, VelInt, isInContact, hasFallen`. -/

/-- A single body (`N = 1`): the driver's body loop is empty. -/
def pA : Params := ⟨1, 0, 0, 0, 0, 0, 0, (0, 0, 0), 0⟩

/-- Body 0 rests at `(0,1,0)`, everything else zero. -/
def sA : State :=
  ⟨fun _ => 0, fun _ => 0, fun _ => (0, 1, 0), fun _ => 0, fun _ => 0,
    fun _ => false, fun _ => false⟩

/-- Two bodies, unit timestep, unit central radius, central mass at the
origin. -/
def pB : Params := ⟨2, 0, 0, 1, 1, 0.95, 1, (0, 0, 0), 0⟩

/-- Body 0 sits exactly on the central mass (inside its radius) with cloud
velocity `(0,5,0)`. -/
def sB : State :=
  ⟨fun _ => 0, fun _ => 0, fun _ => 0,
    fun n => if n = 0 then (0, 5, 0) else 0, fun _ => 0,
    fun _ => false, fun _ => false⟩

/-- Three bodies, `Gm = 1`, unit central radius and collision diameter. -/
def pC : Params := ⟨3, 1, 0, 1, 1, 0.95, 1, (0, 0, 0), 0⟩

/-- Bodies on the y-axis at 10, 13 and 20; body 1 is already settled. -/
def sC : State :=
  ⟨fun _ => 0, fun _ => 0,
    fun n => if n = 0 then (0, 10, 0) else if n = 1 then (0, 13, 0) else (0, 20, 0),
    fun _ => 0, fun _ => 0, fun _ => false,
    fun n => if n = 1 then true else false⟩

/-- Two bodies, `GM = 100`, unit timestep. -/
def pD : Params := ⟨2, 0, 100, 1, 1, 0.95, 1, (0, 0, 0), 0⟩

/-- Body 0 at `(0,10,0)`, at rest. -/
def sD : State :=
  ⟨fun _ => 0, fun _ => 0,
    fun n => if n = 0 then (0, 10, 0) else (0, 100, 0),
    fun _ => 0, fun _ => 0, fun _ => false, fun _ => false⟩

/-- Three bodies, massless (`Gm = GM = 0`), collision diameter 2, central
radius 0, unit timestep. -/
def pE : Params := ⟨3, 0, 0, 1, 2, 0.95, 0, (0, 0, 0), 0⟩

/-- Body 0 at the origin moving `(0,10,0)` per step (internal velocity),
body 1 at `(0,11,0)` moving `(0,1,0)`, body 2 far away and at rest:
during a frame body 0 moves to within the collision diameter of body 1. -/
def sE : State :=
  ⟨fun _ => 0, fun _ => 0,
    fun n => if n = 0 then (0, 0, 0) else if n = 1 then (0, 11, 0) else (0, 100, 0),
    fun _ => 0,
    fun n => if n = 0 then (0, 10, 0) else if n = 1 then (0, 1, 0) else 0,
    fun _ => false, fun _ => false⟩

/-- Two bodies, collision diameter 2, unit central radius. -/
def pF : Params := ⟨2, 1, 0, 1, 2, 0.95, 1, (0, 0, 0), 0⟩

/-- Body 0 at `(0,10,0)` and body 1 at `(0,11,0)`: body 1 (the last body,
which the pairwise loop never scans) is within the collision diameter of
body 0, and both are active. -/
def sF : State :=
  ⟨fun _ => 0, fun _ => 0,
    fun n => if n = 0 then (0, 10, 0) else (0, 11, 0),
    fun _ => 0, fun _ => 0, fun _ => false, fun _ => false⟩

/-- A degenerate configuration: zero bodies, zero timestep. -/
def pG : Params := ⟨0, 0, 0, 0, 0, 0, 0, (0, 0, 0), 0⟩

/-- The all-zero state. -/
def sG : State :=
  ⟨fun _ => 0, fun _ => 0, fun _ => 0, fun _ => 0, fun _ => 0,
    fun _ => false, fun _ => false⟩

/-- A small concrete time series for the save/load round trip. -/
noncomputable def tsH : ℕ → ℕ → Vec3 := fun t i => ((t : ℝ), (i : ℝ), (t : ℝ) + i)

lemma slots_eq_iff {s' s : State} {i : ℕ} :
    slots s' i = slots s i ↔
      s'.Loc i = s.Loc i ∧ s'.VelRad i = s.VelRad i ∧ s'.VelInt i = s.VelInt i ∧
      s'.AccRad i = s.AccRad i ∧ s'.AccInt i = s.AccInt i ∧
      s'.isInContact i = s.isInContact i ∧ s'.hasFallen i = s.hasFallen i := by
  simp [slots, Prod.ext_iff]

lemma norm3_nonneg (v : Vec3) : 0 ≤ norm3 v :=
  pow_nonneg (Real.sqrt_nonneg _) 3

lemma norm3_eval (x y z a : ℝ) (ha : 0 ≤ a) (h : x ^ 2 + y ^ 2 + z ^ 2 = a ^ 2) :
    norm3 (x, y, z) = a ^ 3 := by
  unfold norm3
  simp only
  rw [h, Real.sqrt_sq ha]

lemma divV_eq_smul (v : Vec3) (c : ℝ) : divV v c = c⁻¹ • v := by
  unfold divV
  cases v with
  | mk vx vyz =>
    cases vyz with
    | mk vy vz =>
      simp [Prod.smul_mk, smul_eq_mul]
      constructor
      · ring
      constructor
      · ring
      · ring

lemma findCurrentAcc_Loc (p : Params) (s : State) (i : ℕ) :
    (findCurrentAcc p s i).Loc = s.Loc := by
  by_cases hc : norm3 (p.HeavyMassLoc - s.Loc i) ≥ p.LargeRadius ^ 3 <;>
    simp [findCurrentAcc, hc]

lemma findCurrentAcc_VelRad (p : Params) (s : State) (i : ℕ) :
    (findCurrentAcc p s i).VelRad = s.VelRad := by
  by_cases hc : norm3 (p.HeavyMassLoc - s.Loc i) ≥ p.LargeRadius ^ 3 <;>
    simp [findCurrentAcc, hc]

lemma findCurrentAcc_VelInt (p : Params) (s : State) (i : ℕ) :
    (findCurrentAcc p s i).VelInt = s.VelInt := by
  by_cases hc : norm3 (p.HeavyMassLoc - s.Loc i) ≥ p.LargeRadius ^ 3 <;>
    simp [findCurrentAcc, hc]

lemma findNextLoc_VelRad (p : Params) (s : State) (i : ℕ) :
    (findNextLoc p s i).VelRad = s.VelRad := rfl

lemma findNextLoc_VelInt (p : Params) (s : State) (i : ℕ) :
    (findNextLoc p s i).VelInt = s.VelInt := rfl

lemma findNextLoc_AccRad (p : Params) (s : State) (i : ℕ) :
    (findNextLoc p s i).AccRad = s.AccRad := rfl

lemma findNextLoc_AccInt (p : Params) (s : State) (i : ℕ) :
    (findNextLoc p s i).AccInt = s.AccInt := rfl

lemma findNextLoc_isInContact (p : Params) (s : State) (i : ℕ) :
    (findNextLoc p s i).isInContact = s.isInContact := rfl

lemma findNextLoc_hasFallen (p : Params) (s : State) (i : ℕ) :
    (findNextLoc p s i).hasFallen = s.hasFallen := rfl

lemma findNextVel_Loc (p : Params) (s : State) (i : ℕ) :
    (findNextVel p s i).Loc = s.Loc := rfl

lemma findNextVel_AccRad (p : Params) (s : State) (i : ℕ) :
    (findNextVel p s i).AccRad = s.AccRad := rfl

lemma findNextVel_AccInt (p : Params) (s : State) (i : ℕ) :
    (findNextVel p s i).AccInt = s.AccInt := rfl

lemma findNextVel_isInContact (p : Params) (s : State) (i : ℕ) :
    (findNextVel p s i).isInContact = s.isInContact := rfl

lemma findNextVel_hasFallen (p : Params) (s : State) (i : ℕ) :
    (findNextVel p s i).hasFallen = s.hasFallen := rfl

lemma findCurrentAcc_slots_ne (p : Params) (s : State) {j i : ℕ} (h : j ≠ i) :
    slots (findCurrentAcc p s j) i = slots s i := by
  by_cases hc : norm3 (p.HeavyMassLoc - s.Loc j) ≥ p.LargeRadius ^ 3 <;>
    simp [findCurrentAcc, hc, slots, Function.update_noteq (Ne.symm h)]

lemma stepBody_slots_ne (p : Params) (s : State) {j i : ℕ} (h : j ≠ i) :
    slots (stepBody p s j) i = slots s i := by
  unfold stepBody
  split
  · have h1 := findCurrentAcc_slots_ne p s h
    rw [slots_eq_iff] at h1
    simp [slots, findNextVel, findNextLoc, Function.update_noteq (Ne.symm h),
      h1.1, h1.2.1, h1.2.2.1, h1.2.2.2.1, h1.2.2.2.2.1, h1.2.2.2.2.2.1,
      h1.2.2.2.2.2.2]
  · rfl

lemma foldl_stepBody_not_mem (p : Params) {l : List ℕ} {i : ℕ} (h : i ∉ l)
    (s : State) : slots (l.foldl (stepBody p) s) i = slots s i := by
  induction l generalizing s with
  | nil => rfl
  | cons j tl ih =>
    have hj : j ≠ i := fun e => h (e ▸ List.mem_cons_self j tl)
    have htl : i ∉ tl := fun m => h (List.mem_cons_of_mem _ m)
    calc slots ((j :: tl).foldl (stepBody p) s) i
        = slots (tl.foldl (stepBody p) (stepBody p s j)) i := rfl
      _ = slots (stepBody p s j) i := ih htl (stepBody p s j)
      _ = slots s i := stepBody_slots_ne p s hj

lemma stepBody_fallen (p : Params) (s : State) {i : ℕ}
    (h : s.hasFallen i = true) : stepBody p s i = s := by
  unfold stepBody
  rw [h]
  simp

lemma foldl_stepBody_frozen (p : Params) (l : List ℕ) {i : ℕ} (s : State)
    (h : s.hasFallen i = true) : slots (l.foldl (stepBody p) s) i = slots s i := by
  induction l generalizing s with
  | nil => rfl
  | cons j tl ih =>
    by_cases hj : j = i
    · subst hj
      calc slots ((j :: tl).foldl (stepBody p) s) j
          = slots (tl.foldl (stepBody p) (stepBody p s j)) j := rfl
        _ = slots s j := by rw [stepBody_fallen p s h]; exact ih s h
    · have h1 : slots (stepBody p s j) i = slots s i := stepBody_slots_ne p s hj
      have h2 : (stepBody p s j).hasFallen i = true := by
        rw [slots_eq_iff] at h1
        rw [h1.2.2.2.2.2.2]
        exact h
      calc slots ((j :: tl).foldl (stepBody p) s) i
          = slots (tl.foldl (stepBody p) (stepBody p s j)) i := rfl
        _ = slots (stepBody p s j) i := ih _ h2
        _ = slots s i := h1

lemma frameStep_frozen (p : Params) (s : State) {i : ℕ}
    (h : s.hasFallen i = true) : slots (frameStep p s) i = slots s i :=
  foldl_stepBody_frozen p _ s h

lemma stateAfter_frozen (p : Params) (s : State) {i : ℕ} (m : ℕ)
    (h : s.hasFallen i = true) : slots (stateAfter p s m) i = slots s i := by
  induction m with
  | zero => rfl
  | succ m ih =>
    have hm : (stateAfter p s m).hasFallen i = true := by
      rw [slots_eq_iff] at ih
      rw [ih.2.2.2.2.2.2]
      exact h
    calc slots (stateAfter p s (m + 1)) i
        = slots (frameStep p (stateAfter p s m)) i := rfl
      _ = slots (stateAfter p s m) i := frameStep_frozen p _ hm
      _ = slots s i := ih

lemma stateAfter_add (p : Params) (s : State) (k m : ℕ) :
    stateAfter p s (k + m) = stateAfter p (stateAfter p s k) m := by
  induction m with
  | zero => rfl
  | succ m ih =>
    show stateAfter p s (k + m + 1) = frameStep p (stateAfter p (stateAfter p s k) m)
    rw [← ih]
    rfl

lemma exists_lt_succ {P : ℕ → Prop} (n : ℕ) :
    (∃ j, j < n + 1 ∧ P j) ↔ (∃ j, j < n ∧ P j) ∨ P n := by
  constructor
  · rintro ⟨j, hj, hP⟩
    rcases Nat.lt_succ_iff_lt_or_eq.mp hj with h | h
    · exact Or.inl ⟨j, h, hP⟩
    · subst h
      exact Or.inr hP
  · rintro (⟨j, hj, hP⟩ | hP)
    · exact ⟨j, Nat.lt_succ_of_lt hj, hP⟩
    · exact ⟨n, Nat.lt_succ_self n, hP⟩

lemma scan_foldl_fst (p : Params) (L : ℕ → Vec3) (i n : ℕ) (st : Bool × Vec3) :
    ((List.range n).foldl (scanStep p L i) st).1 = true ↔
      st.1 = true ∨ ∃ j, j < n ∧ j ≠ i ∧ norm3 (L j - L i) < p.SmallDiam ^ 3 := by
  induction n with
  | zero => simp
  | succ n ih =>
    rw [List.range_succ, List.foldl_append, List.foldl_cons, List.foldl_nil,
      exists_lt_succ]
    simp only [scanStep]
    by_cases hni : n ≠ i
    · rw [if_pos hni]
      by_cases hc : norm3 (L n - L i) < p.SmallDiam ^ 3
      · rw [if_pos hc]
        constructor
        · intro _
          exact Or.inr (Or.inr ⟨hni, hc⟩)
        · intro _
          rfl
      · rw [if_neg hc]
        dsimp only
        rw [ih]
        constructor
        · rintro (h | h)
          · exact Or.inl h
          · exact Or.inr (Or.inl h)
        · rintro (h | h | h)
          · exact Or.inl h
          · exact Or.inr h
          · exact absurd h.2 hc
    · rw [if_neg hni]
      rw [ih]
      constructor
      · rintro (h | h)
        · exact Or.inl h
        · exact Or.inr (Or.inl h)
      · rintro (h | h | h)
        · exact Or.inl h
        · exact Or.inr h
        · exact absurd h.1 hni

lemma scan_foldl_snd (p : Params) (L : ℕ → Vec3) (i n : ℕ) (st : Bool × Vec3) :
    ((List.range n).foldl (scanStep p L i) st).2 =
      st.2 + ∑ j in Finset.range n,
        (if j ≠ i ∧ ¬ norm3 (L j - L i) < p.SmallDiam ^ 3 then
          divV (L j - L i) (0.001 * norm3 (L j - L i)) else 0) := by
  induction n with
  | zero => simp
  | succ n ih =>
    rw [List.range_succ, List.foldl_append, List.foldl_cons, List.foldl_nil,
      Finset.sum_range_succ]
    by_cases hni : n ≠ i
    · by_cases hc : norm3 (L n - L i) < p.SmallDiam ^ 3
      · simp only [scanStep, if_pos hni, if_pos hc]
        rw [ih]
        simp [hc]
      · simp only [scanStep, if_pos hni, if_neg hc]
        rw [ih]
        simp [hc, hni, add_assoc]
    · simp only [scanStep, if_neg hni]
      rw [ih]
      simp [hni]

lemma scanBodies_fst (p : Params) (L : ℕ → Vec3) (i : ℕ) :
    (scanBodies p L i).1 = true ↔
      ∃ j, j < p.N - 1 ∧ j ≠ i ∧ norm3 (L j - L i) < p.SmallDiam ^ 3 := by
  unfold scanBodies
  rw [scan_foldl_fst]
  simp

lemma scanBodies_snd (p : Params) (L : ℕ → Vec3) (i : ℕ) :
    (scanBodies p L i).2 =
      ∑ j in Finset.range (p.N - 1),
        (if j ≠ i ∧ ¬ norm3 (L j - L i) < p.SmallDiam ^ 3 then
          divV (L j - L i) (0.001 * norm3 (L j - L i)) else 0) := by
  unfold scanBodies
  rw [scan_foldl_snd]
  simp

lemma findCurrentAcc_out (p : Params) (s : State) (i : ℕ)
    (hout : norm3 (p.HeavyMassLoc - s.Loc i) ≥ p.LargeRadius ^ 3) :
    findCurrentAcc p s i =
      { s with
        AccRad := Function.update s.AccRad i
          ((0.001 : ℝ) • (p.GM • divV (p.HeavyMassLoc - s.Loc i)
            (0.001 * norm3 (p.HeavyMassLoc - s.Loc i)))),
        AccInt := Function.update s.AccInt i
          ((0.001 : ℝ) • (p.Gm • (scanBodies p s.Loc i).2)),
        isInContact := Function.update s.isInContact i (scanBodies p s.Loc i).1,
        hasFallen := Function.update s.hasFallen i false } := by
  simp [findCurrentAcc, hout]

lemma findCurrentAcc_in (p : Params) (s : State) (i : ℕ)
    (hin : ¬ norm3 (p.HeavyMassLoc - s.Loc i) ≥ p.LargeRadius ^ 3) :
    findCurrentAcc p s i =
      { s with
        AccRad := Function.update s.AccRad i 0,
        AccInt := Function.update s.AccInt i 0,
        isInContact := Function.update s.isInContact i false,
        hasFallen := Function.update s.hasFallen i true } := by
  simp [findCurrentAcc, hin]

lemma stepBody_fallen_self (p : Params) (s : State) (i : ℕ)
    (hf : s.hasFallen i = false)
    (hin : norm3 (p.HeavyMassLoc - s.Loc i) < p.LargeRadius ^ 3) :
    slots (stepBody p s i) i =
      (s.Loc i + p.dt • (s.VelRad i + s.VelInt i), s.VelRad i, s.VelInt i,
        0, 0, false, true) := by
  unfold stepBody
  rw [hf, if_pos rfl]
  rw [findCurrentAcc_in p s i (not_le.mpr hin)]
  simp [slots, findNextVel, findNextLoc, Function.update_same]

lemma foldl_range_fallen (p : Params) (s : State) (i n : ℕ) (hi : i < n)
    (hf : s.hasFallen i = false)
    (hin : norm3 (p.HeavyMassLoc - s.Loc i) < p.LargeRadius ^ 3) :
    slots ((List.range n).foldl (stepBody p) s) i =
      (s.Loc i + p.dt • (s.VelRad i + s.VelInt i), s.VelRad i, s.VelInt i,
        0, 0, false, true) := by
  induction n with
  | zero => omega
  | succ n ih =>
    rw [List.range_succ, List.foldl_append, List.foldl_cons, List.foldl_nil]
    by_cases hni : i < n
    · have hne : n ≠ i := by omega
      rw [stepBody_slots_ne p _ hne]
      exact ih hni
    · have hieq : i = n := by omega
      subst hieq
      have hpre := foldl_stepBody_not_mem p (l := List.range i) (i := i)
        (by simp) s
      rw [slots_eq_iff] at hpre
      have h1 := stepBody_fallen_self p ((List.range i).foldl (stepBody p) s) i
        (by rw [hpre.2.2.2.2.2.2]; exact hf)
        (by rw [hpre.1]; exact hin)
      rw [h1, hpre.1, hpre.2.1, hpre.2.2.1]

lemma frameStep_fallen (p : Params) (s : State) (i : ℕ) (hi : i < p.N - 1)
    (hf : s.hasFallen i = false)
    (hin : norm3 (p.HeavyMassLoc - s.Loc i) < p.LargeRadius ^ 3) :
    slots (frameStep p s) i =
      (s.Loc i + p.dt • (s.VelRad i + s.VelInt i), s.VelRad i, s.VelInt i,
        0, 0, false, true) :=
  foldl_range_fallen p s i (p.N - 1) hi hf hin

lemma Run_foldl (p : Params) (s : State) (ts0 : ℕ → ℕ → Vec3) (n : ℕ) :
    (List.range n).foldl (runStep p) ⟨s, ts0⟩ =
      ⟨stateAfter p s n,
        fun t => if t < n then (fun i => (stateAfter p s (t + 1)).Loc i)
          else ts0 t⟩ := by
  induction n with
  | zero =>
    simp only [List.range_zero, List.foldl_nil]
    congr 1
  | succ n ih =>
    rw [List.range_succ, List.foldl_append, List.foldl_cons, List.foldl_nil, ih]
    unfold runStep
    congr 1
    funext t
    rcases Nat.lt_trichotomy t n with h | h | h
    · rw [Function.update_noteq (by omega)]
      simp [h, Nat.lt_succ_of_lt h]
    · subst h
      rw [Function.update_same, if_pos (Nat.lt_succ_self t)]
      rfl
    · rw [Function.update_noteq (by omega)]
      have h1 : ¬ t < n := by omega
      have h2 : ¬ t < n + 1 := by omega
      simp [h1, h2]

lemma Run_eq (p : Params) (s : State) (c : ℕ) :
    Run p s c =
      ⟨stateAfter p s (c - 1),
        fun t => if t < c - 1 then (fun i => (stateAfter p s (t + 1)).Loc i)
          else fun _ => 0⟩ :=
  Run_foldl p s (fun _ _ => 0) (c - 1)

lemma vec_sub_eval (a b c d e f : ℝ) :
    ((a, b, c) : Vec3) - (d, e, f) = (a - d, b - e, c - f) := rfl

lemma vec_add_eval (a b c d e f : ℝ) :
    ((a, b, c) : Vec3) + (d, e, f) = (a + d, b + e, c + f) := rfl

lemma vec_smul_eval (r a b c : ℝ) :
    r • ((a, b, c) : Vec3) = (r * a, r * b, r * c) := rfl

lemma vec_zero_eval : (0 : Vec3) = ((0 : ℝ), (0 : ℝ), (0 : ℝ)) := rfl

lemma divV_eval (a b c d : ℝ) :
    divV ((a, b, c) : Vec3) d = (a / d, b / d, c / d) := rfl

lemma stepBody_eqs (p : Params) (s : State) (i : ℕ)
    (hf : s.hasFallen i = false) :
    (stepBody p s i).Loc i =
        s.Loc i + p.dt • (s.VelRad i + s.VelInt i)
          + (0.5 * p.dt ^ 2) •
            ((findCurrentAcc p s i).AccRad i + (findCurrentAcc p s i).AccInt i)
      ∧ (stepBody p s i).VelRad i =
        s.VelRad i + p.dt • (findCurrentAcc p s i).AccRad i
      ∧ (stepBody p s i).VelInt i =
        (if (findCurrentAcc p s i).isInContact i = true then
          p.VelDecreaseFactor • (s.VelInt i + p.dt • (findCurrentAcc p s i).AccInt i)
        else s.VelInt i + p.dt • (findCurrentAcc p s i).AccInt i)
      ∧ (stepBody p s i).AccRad i = (findCurrentAcc p s i).AccRad i
      ∧ (stepBody p s i).AccInt i = (findCurrentAcc p s i).AccInt i := by
  unfold stepBody
  rw [hf, if_pos rfl]
  refine ⟨?_, ?_, ?_, rfl, rfl⟩
  · show (findNextLoc p (findCurrentAcc p s i) i).Loc i = _
    simp [findNextLoc, Function.update_same, findCurrentAcc_Loc,
      findCurrentAcc_VelRad, findCurrentAcc_VelInt]
  · show (findNextVel p (findNextLoc p (findCurrentAcc p s i) i) i).VelRad i = _
    simp [findNextVel, findNextLoc, Function.update_same, findCurrentAcc_VelRad]
  · show (findNextVel p (findNextLoc p (findCurrentAcc p s i) i) i).VelInt i = _
    simp [findNextVel, findNextLoc, Function.update_same, findCurrentAcc_VelInt]

lemma hinB : norm3 (pB.HeavyMassLoc - sB.Loc 0) < pB.LargeRadius ^ 3 := by
  have harg : pB.HeavyMassLoc - sB.Loc 0 = ((0 : ℝ), 0, 0) := by
    norm_num [pB, sB, vec_zero_eval, vec_sub_eval]
  rw [harg, norm3_eval 0 0 0 0 le_rfl (by norm_num)]
  norm_num [pB]

lemma evalB_all :
    (stateAfter pB sB 1).Loc 0 = (0, 5, 0) ∧
    (stateAfter pB sB 1).VelRad 0 = (0, 5, 0) ∧
    (stateAfter pB sB 1).VelInt 0 = 0 ∧
    (stateAfter pB sB 1).AccRad 0 = 0 ∧
    (stateAfter pB sB 1).AccInt 0 = 0 ∧
    (stateAfter pB sB 1).isInContact 0 = false ∧
    (stateAfter pB sB 1).hasFallen 0 = true := by
  have h := frameStep_fallen pB sB 0 (by norm_num [pB]) rfl hinB
  unfold slots at h
  simp only [Prod.mk.injEq] at h
  obtain ⟨h1, h2, h3, h4, h5, h6, h7⟩ := h
  have hval : sB.Loc 0 + pB.dt • (sB.VelRad 0 + sB.VelInt 0) = ((0 : ℝ), 5, 0) := by
    norm_num [pB, sB, vec_zero_eval, vec_add_eval, vec_smul_eval]
  have hVR : sB.VelRad 0 = ((0 : ℝ), 5, 0) := by norm_num [sB]
  have hVI : sB.VelInt 0 = (0 : Vec3) := rfl
  exact ⟨by rw [show stateAfter pB sB 1 = frameStep pB sB from rfl, h1, hval],
    by rw [show stateAfter pB sB 1 = frameStep pB sB from rfl, h2, hVR],
    by rw [show stateAfter pB sB 1 = frameStep pB sB from rfl, h3, hVI],
    by rw [show stateAfter pB sB 1 = frameStep pB sB from rfl]; exact h4,
    by rw [show stateAfter pB sB 1 = frameStep pB sB from rfl]; exact h5,
    by rw [show stateAfter pB sB 1 = frameStep pB sB from rfl]; exact h6,
    by rw [show stateAfter pB sB 1 = frameStep pB sB from rfl]; exact h7⟩

/-- C2: with `frame_count = 2` and a single resting body at `(0,1,0)`, the
recorded column for frame index `1` is the never-written zero column of the
buffer, not the body's position at the end of step `1`: the run executes
only `frame_count - 1` frames, so the claimed snapshot invariant fails at
the final frame index. -/
theorem C2_counterexample :
    (Run pA sA 2).TimeSeries 1 0 ≠ (stateAfter pA sA 2).Loc 0 := by
  intro h
  have h0 : (Run pA sA 2).TimeSeries 1 0 = (0 : Vec3) := rfl
  have h1 : (stateAfter pA sA 2).Loc 0 = ((0 : ℝ), 1, 0) := rfl
  rw [h0, h1, vec_zero_eval] at h
  simp [Prod.ext_iff] at h

/-- C2 (amended): a run with frame count `c` executes `c - 1` integration
frames; for every `t < c - 1` the recorded column `t` is exactly the
position array at the end of integration step `t`, columns from `c - 1` on
keep the buffer's initial zeros, and the final state is the state after
`c - 1` frames. -/
theorem C2_theorem (p : Params) (s : State) (c t : ℕ) :
    (t < c - 1 →
      (Run p s c).TimeSeries t = fun i => (stateAfter p s (t + 1)).Loc i) ∧
    (c - 1 ≤ t → (Run p s c).TimeSeries t = fun _ => 0) ∧
    (Run p s c).state = stateAfter p s (c - 1) := by
  rw [Run_eq]
  refine ⟨fun h => ?_, fun h => ?_, rfl⟩
  · simp [h]
  · simp [Nat.not_lt.mpr h]

/-- Witness for C2: the amended claim instantiated on the one-body run with
`c = 2`, at the written column `t = 0` and the never-written column
`t = 1`. -/
theorem C2_witness :
    ((0 : ℕ) < 2 - 1 ∧
      (Run pA sA 2).TimeSeries 0 = fun i => (stateAfter pA sA 1).Loc i) ∧
    ((2 : ℕ) - 1 ≤ 1 ∧ (Run pA sA 2).TimeSeries 1 = fun _ => 0) :=
  ⟨⟨by norm_num, (C2_theorem pA sA 2 0).1 (by norm_num)⟩,
    ⟨by norm_num, (C2_theorem pA sA 2 1).2.1 (by norm_num)⟩⟩

lemma hargD : pD.HeavyMassLoc - sD.Loc 0 = ((0 : ℝ), -10, 0) := by
  norm_num [pD, sD, vec_sub_eval]

lemma houtD : norm3 (pD.HeavyMassLoc - sD.Loc 0) ≥ pD.LargeRadius ^ 3 := by
  rw [hargD, norm3_eval 0 (-10) 0 10 (by norm_num) (by norm_num)]
  norm_num [pD]

lemma evalD_AccRad : (findCurrentAcc pD sD 0).AccRad 0 = (0, -1, 0) := by
  rw [findCurrentAcc_out pD sD 0 houtD]
  show Function.update sD.AccRad 0 _ 0 = _
  rw [Function.update_same, hargD, norm3_eval 0 (-10) 0 10 (by norm_num) (by norm_num)]
  norm_num [pD, divV_eval, vec_smul_eval, Prod.ext_iff]

lemma evalD_AccInt : (findCurrentAcc pD sD 0).AccInt 0 = 0 := by
  rw [findCurrentAcc_out pD sD 0 houtD]
  show Function.update sD.AccInt 0 _ 0 = _
  rw [Function.update_same, show pD.Gm = 0 from rfl]
  simp

lemma evalD_contact : (findCurrentAcc pD sD 0).isInContact 0 = false := by
  rw [findCurrentAcc_out pD sD 0 houtD]
  show Function.update sD.isInContact 0 _ 0 = _
  rw [Function.update_same]
  rfl

lemma evalD_Loc : (stepBody pD sD 0).Loc 0 = (0, 9.5, 0) := by
  obtain ⟨hLoc, _, _, _, _⟩ := stepBody_eqs pD sD 0 rfl
  rw [hLoc, evalD_AccRad, evalD_AccInt]
  norm_num [pD, sD, vec_zero_eval, vec_add_eval, vec_smul_eval, Prod.ext_iff]

lemma evalD_VelRad : (stepBody pD sD 0).VelRad 0 = (0, -1, 0) := by
  obtain ⟨_, hVR, _, _, _⟩ := stepBody_eqs pD sD 0 rfl
  rw [hVR, evalD_AccRad]
  norm_num [pD, sD, vec_zero_eval, vec_add_eval, vec_smul_eval, Prod.ext_iff]

lemma evalD_VelInt : (stepBody pD sD 0).VelInt 0 = 0 := by
  obtain ⟨_, _, hVI, _, _⟩ := stepBody_eqs pD sD 0 rfl
  rw [hVI, evalD_contact, evalD_AccInt]
  norm_num [pD, sD, vec_zero_eval, vec_add_eval, vec_smul_eval, Prod.ext_iff]

lemma evalD_AccRad_step : (stepBody pD sD 0).AccRad 0 = (0, -1, 0) := by
  obtain ⟨_, _, _, hAR, _⟩ := stepBody_eqs pD sD 0 rfl
  rw [hAR, evalD_AccRad]

lemma evalD_AccInt_step : (stepBody pD sD 0).AccInt 0 = 0 := by
  obtain ⟨_, _, _, _, hAI⟩ := stepBody_eqs pD sD 0 rfl
  rw [hAI, evalD_AccInt]

/-- C3: for a single resting body attracted by the central mass, the
position produced by the per-body step does not satisfy the claimed
semi-implicit update (position from the just-updated velocities): the code
updates the position before the velocities, from the previous step's
velocities. -/
theorem C3_counterexample :
    (stepBody pD sD 0).Loc 0 ≠
      sD.Loc 0 + pD.dt • ((stepBody pD sD 0).VelRad 0 + (stepBody pD sD 0).VelInt 0)
        + (0.5 * pD.dt ^ 2) •
          ((stepBody pD sD 0).AccRad 0 + (stepBody pD sD 0).AccInt 0) := by
  rw [evalD_Loc, evalD_VelRad, evalD_VelInt, evalD_AccRad_step, evalD_AccInt_step]
  norm_num [pD, sD, vec_zero_eval, vec_add_eval, vec_smul_eval, Prod.ext_iff]

/-- C3 (amended): in the per-body step the position is updated first, from
the pre-update velocities of the body together with the accelerations just
computed for this step, and only afterwards are the velocities updated
(`v += a*dt`, the internal component damped by the factor when in
contact). -/
theorem C3_theorem (p : Params) (s : State) (i : ℕ)
    (hf : s.hasFallen i = false) :
    (stepBody p s i).Loc i =
        s.Loc i + p.dt • (s.VelRad i + s.VelInt i)
          + (0.5 * p.dt ^ 2) •
            ((findCurrentAcc p s i).AccRad i + (findCurrentAcc p s i).AccInt i)
      ∧ (stepBody p s i).VelRad i =
        s.VelRad i + p.dt • (findCurrentAcc p s i).AccRad i
      ∧ (stepBody p s i).VelInt i =
        (if (findCurrentAcc p s i).isInContact i = true then
          p.VelDecreaseFactor • (s.VelInt i + p.dt • (findCurrentAcc p s i).AccInt i)
        else s.VelInt i + p.dt • (findCurrentAcc p s i).AccInt i)
      ∧ (stepBody p s i).AccRad i = (findCurrentAcc p s i).AccRad i
      ∧ (stepBody p s i).AccInt i = (findCurrentAcc p s i).AccInt i :=
  stepBody_eqs p s i hf

/-- Witness for C3: the amended update equations instantiated on the
concrete one-body configuration. -/
theorem C3_witness :
    sD.hasFallen 0 = false ∧
    ((stepBody pD sD 0).Loc 0 =
        sD.Loc 0 + pD.dt • (sD.VelRad 0 + sD.VelInt 0)
          + (0.5 * pD.dt ^ 2) •
            ((findCurrentAcc pD sD 0).AccRad 0 + (findCurrentAcc pD sD 0).AccInt 0)
      ∧ (stepBody pD sD 0).VelRad 0 =
        sD.VelRad 0 + pD.dt • (findCurrentAcc pD sD 0).AccRad 0
      ∧ (stepBody pD sD 0).VelInt 0 =
        (if (findCurrentAcc pD sD 0).isInContact 0 = true then
          pD.VelDecreaseFactor • (sD.VelInt 0 + pD.dt • (findCurrentAcc pD sD 0).AccInt 0)
        else sD.VelInt 0 + pD.dt • (findCurrentAcc pD sD 0).AccInt 0)
      ∧ (stepBody pD sD 0).AccRad 0 = (findCurrentAcc pD sD 0).AccRad 0
      ∧ (stepBody pD sD 0).AccInt 0 = (findCurrentAcc pD sD 0).AccInt 0) :=
  ⟨rfl, C3_theorem pD sD 0 rfl⟩

/-- C4: a body placed exactly on the central mass with cloud velocity
`(0,5,0)` is settled during frame 0, but its velocity does not become
zero and its position moves during the settling frame: the claim that its
acceleration and velocity remain exactly zero (so that the position never
changes) is false. -/
theorem C4_counterexample :
    (stateAfter pB sB 1).hasFallen 0 = true ∧
    (stateAfter pB sB 1).VelRad 0 ≠ 0 ∧
    (stateAfter pB sB 1).Loc 0 ≠ sB.Loc 0 := by
  obtain ⟨hL, hVR, _, _, _, _, hHF⟩ := evalB_all
  refine ⟨hHF, ?_, ?_⟩
  · rw [hVR, vec_zero_eval]
    simp [Prod.ext_iff]
  · rw [hL, show sB.Loc 0 = (0 : Vec3) from rfl, vec_zero_eval]
    simp [Prod.ext_iff]

/-- C4 (amended): when the force pass finds body `i` inside the central
radius it marks it settled and zeroes both acceleration components, but the
driver still runs the position and velocity updates for it in that same
frame: the position moves once more by the current velocity times `dt`
(the acceleration contribution is zero) and the velocities are left
unchanged; from the next frame on the body is never touched again. -/
theorem C4_theorem (p : Params) (s : State) (i : ℕ) (hi : i < p.N - 1)
    (hf : s.hasFallen i = false)
    (hin : norm3 (p.HeavyMassLoc - s.Loc i) < p.LargeRadius ^ 3) :
    (frameStep p s).hasFallen i = true ∧
    (frameStep p s).AccRad i = 0 ∧ (frameStep p s).AccInt i = 0 ∧
    (frameStep p s).Loc i = s.Loc i + p.dt • (s.VelRad i + s.VelInt i) ∧
    (frameStep p s).VelRad i = s.VelRad i ∧
    (frameStep p s).VelInt i = s.VelInt i ∧
    ∀ m, slots (stateAfter p (frameStep p s) m) i = slots (frameStep p s) i := by
  have h := frameStep_fallen p s i hi hf hin
  unfold slots at h
  simp only [Prod.mk.injEq] at h
  obtain ⟨h1, h2, h3, h4, h5, h6, h7⟩ := h
  exact ⟨h7, h4, h5, h1, h2, h3, fun m => stateAfter_frozen p _ m h7⟩

/-- Witness for C4: the amended settling behaviour instantiated on the
body resting exactly on the central mass. -/
theorem C4_witness :
    (0 : ℕ) < pB.N - 1 ∧ sB.hasFallen 0 = false ∧
    norm3 (pB.HeavyMassLoc - sB.Loc 0) < pB.LargeRadius ^ 3 ∧
    ((frameStep pB sB).hasFallen 0 = true ∧
      (frameStep pB sB).AccRad 0 = 0 ∧ (frameStep pB sB).AccInt 0 = 0 ∧
      (frameStep pB sB).Loc 0 = sB.Loc 0 + pB.dt • (sB.VelRad 0 + sB.VelInt 0) ∧
      (frameStep pB sB).VelRad 0 = sB.VelRad 0 ∧
      (frameStep pB sB).VelInt 0 = sB.VelInt 0 ∧
      ∀ m, slots (stateAfter pB (frameStep pB sB) m) 0 = slots (frameStep pB sB) 0) :=
  ⟨by norm_num [pB], rfl, hinB,
    C4_theorem pB sB 0 (by norm_num [pB]) rfl hinB⟩

/-- C5: once a body's settled flag is true at the end of some frame `k`, it
is still true at the end of every later frame `k + m`, and none of the
body's state slots (position, velocities, accelerations, flags) change
after frame `k`: the driver's settled check keeps the force routine's flag
reset unreachable for settled bodies. -/
theorem C5_theorem (p : Params) (s : State) (i k m : ℕ)
    (h : (stateAfter p s k).hasFallen i = true) :
    (stateAfter p s (k + m)).hasFallen i = true ∧
    slots (stateAfter p s (k + m)) i = slots (stateAfter p s k) i := by
  rw [stateAfter_add]
  have hs := stateAfter_frozen p (stateAfter p s k) m h
  refine ⟨?_, hs⟩
  rw [slots_eq_iff] at hs
  rw [hs.2.2.2.2.2.2]
  exact h

/-- Witness for C5: the body settled at frame 1 of the concrete
configuration stays settled and frozen at frame 2. -/
theorem C5_witness :
    (stateAfter pB sB 1).hasFallen 0 = true ∧
    ((stateAfter pB sB (1 + 1)).hasFallen 0 = true ∧
      slots (stateAfter pB sB (1 + 1)) 0 = slots (stateAfter pB sB 1) 0) :=
  ⟨evalB_all.2.2.2.2.2.2, C5_theorem pB sB 0 1 1 evalB_all.2.2.2.2.2.2⟩

/-- C8: loading the three per-axis tables written by a save reproduces
every in-range entry of the original time-series buffer exactly. -/
theorem C8_theorem (ts : ℕ → ℕ → Vec3) (n dtcount t i : ℕ)
    (ht : t < dtcount) (hi : i < n) :
    loadSavedSim (saveNewSim ts).1 (saveNewSim ts).2.1 (saveNewSim ts).2.2
      n dtcount t i = ts t i := by
  unfold loadSavedSim saveNewSim
  rw [if_pos ⟨hi, ht⟩]

/-- Witness for C8: the round trip on a concrete 2-body, 3-frame series at
frame 1, body 1. -/
theorem C8_witness :
    (1 : ℕ) < 3 ∧ (1 : ℕ) < 2 ∧
    loadSavedSim (saveNewSim tsH).1 (saveNewSim tsH).2.1 (saveNewSim tsH).2.2
      2 3 1 1 = tsH 1 1 :=
  ⟨by norm_num, by norm_num, C8_theorem tsH 2 3 1 1 (by norm_num) (by norm_num)⟩

/-- C9: with zero bodies (`N ≤ 0`) and frame count 0, initialization
succeeds (it performs no validation and raises no configuration error) and
the engine happily produces a run result: the claimed fail-fast behaviour
does not exist in the code. -/
theorem C9_counterexample :
    (initialiseStates pG [] [] [] sG).isSome = true ∧ (Run pG sG 0).state = sG :=
  ⟨rfl, rfl⟩

/-- C9 (amended): initialization performs no parameter validation: for a
degenerate body count (`N = 0`, the model of `N ≤ 0`) it returns the state
unchanged instead of failing, and a run with any frame count simply
executes its (empty) loops and returns. -/
theorem C9_theorem (p : Params) (x y z : List ℤ) (s : State) (c : ℕ)
    (hN : p.N = 0) :
    initialiseStates p x y z s = some s ∧ (Run p s c).state = s := by
  have hfs : ∀ s' : State, frameStep p s' = s' := by
    intro s'
    unfold frameStep
    rw [hN]
    rfl
  have hsa : ∀ m, stateAfter p s m = s := by
    intro m
    induction m with
    | zero => rfl
    | succ m ih =>
      show frameStep p (stateAfter p s m) = s
      rw [ih, hfs]
  constructor
  · unfold initialiseStates
    rw [hN]
    rfl
  · rw [Run_eq]
    exact hsa (c - 1)

/-- Witness for C9: the amended no-validation behaviour on the concrete
zero-body configuration. -/
theorem C9_witness :
    pG.N = 0 ∧
    (initialiseStates pG [] [] [] sG = some sG ∧ (Run pG sG 0).state = sG) :=
  ⟨rfl, C9_theorem pG [] [] [] sG 0 rfl⟩

lemma scanD_eq (p : Params) (L : ℕ → Vec3) (i : ℕ) (hS : 0 < p.SmallDiam)
    (l : List ℕ) :
    ∀ st : Bool × Vec3,
      l.foldl (scanStepD p L i) (some st) = some (l.foldl (scanStep p L i) st) := by
  induction l with
  | nil => intro st; rfl
  | cons j tl ih =>
    intro st
    have hstep : scanStepD p L i (some st) j = some (scanStep p L i st j) := by
      unfold scanStepD scanStep
      rw [Option.some_bind]
      by_cases hji : j ≠ i
      · rw [if_pos hji, if_pos hji]
        by_cases hc : norm3 (L j - L i) < p.SmallDiam ^ 3
        · rw [if_pos hc, if_pos hc]
        · rw [if_neg hc, if_neg hc]
          have hpos : 0 < norm3 (L j - L i) :=
            lt_of_lt_of_le (pow_pos hS 3) (not_lt.mp hc)
          have hden : (0.001 : ℝ) * norm3 (L j - L i) ≠ 0 :=
            mul_ne_zero (by norm_num) (ne_of_gt hpos)
          rw [divVD, if_neg hden, Option.map_some']
      · rw [if_neg hji, if_neg hji]
    rw [List.foldl_cons, List.foldl_cons, hstep, ih]

/-- C10: every division in the force computation is guarded: with positive
central radius and collision diameter, the instrumented force pass (which
reports any zero denominator as `none`) always returns the plain result,
for every state and body index — including states where two bodies share a
position (those take the contact branch and are never divided by). -/
theorem C10_theorem (p : Params) (s : State) (i : ℕ)
    (hL : 0 < p.LargeRadius) (hS : 0 < p.SmallDiam) :
    findCurrentAccD p s i = some (findCurrentAcc p s i) := by
  by_cases hout : norm3 (p.HeavyMassLoc - s.Loc i) ≥ p.LargeRadius ^ 3
  · have hpos : 0 < norm3 (p.HeavyMassLoc - s.Loc i) :=
      lt_of_lt_of_le (pow_pos hL 3) hout
    have hden : (0.001 : ℝ) * norm3 (p.HeavyMassLoc - s.Loc i) ≠ 0 :=
      mul_ne_zero (by norm_num) (ne_of_gt hpos)
    simp only [findCurrentAccD, findCurrentAcc, if_pos hout]
    rw [divVD, if_neg hden, Option.some_bind, scanD_eq p s.Loc i hS,
      Option.map_some']
    rfl
  · simp only [findCurrentAccD, findCurrentAcc, if_neg hout]

/-- Witness for C10: the no-zero-denominator guarantee instantiated on the
concrete two-body configuration with unit radius and diameter. -/
theorem C10_witness :
    (0 : ℝ) < pB.LargeRadius ∧ (0 : ℝ) < pB.SmallDiam ∧
    findCurrentAccD pB sB 0 = some (findCurrentAcc pB sB 0) :=
  ⟨by norm_num [pB], by norm_num [pB],
    C10_theorem pB sB 0 (by norm_num [pB]) (by norm_num [pB])⟩

lemma hargC : pC.HeavyMassLoc - sC.Loc 0 = ((0 : ℝ), -10, 0) := by
  norm_num [pC, sC, vec_sub_eval]

lemma houtC : norm3 (pC.HeavyMassLoc - sC.Loc 0) ≥ pC.LargeRadius ^ 3 := by
  rw [hargC, norm3_eval 0 (-10) 0 10 (by norm_num) (by norm_num)]
  norm_num [pC]

lemma hsubC1 : sC.Loc 1 - sC.Loc 0 = ((0 : ℝ), 3, 0) := by
  norm_num [sC, vec_sub_eval]

lemma hsubC2 : sC.Loc 2 - sC.Loc 0 = ((0 : ℝ), 10, 0) := by
  norm_num [sC, vec_sub_eval]

lemma hfarC : ∀ j, j < pC.N - 1 → j ≠ 0 →
    pC.SmallDiam ^ 3 ≤ norm3 (sC.Loc j - sC.Loc 0) := by
  intro j hj hj0
  have hj2 : j < 2 := hj
  interval_cases j
  · exact absurd rfl hj0
  · rw [hsubC1, norm3_eval 0 3 0 3 (by norm_num) (by norm_num)]
    norm_num [pC]

/-- C1 (amended): for a body outside the central radius whose scanned
neighbours are all outside collision range, the internal acceleration is
`Gm` times the exact vector sum of `r/|r|^3` over every body `j ≠ i` with
`j < N - 1` — the pairwise loop ignores the settled flag (settled bodies
still contribute) and never scans the last body index.  The `0.001`
rescaling of the source cancels exactly. -/
theorem C1_theorem (p : Params) (s : State) (i : ℕ)
    (hS : 0 < p.SmallDiam)
    (hout : norm3 (p.HeavyMassLoc - s.Loc i) ≥ p.LargeRadius ^ 3)
    (hfar : ∀ j, j < p.N - 1 → j ≠ i →
      p.SmallDiam ^ 3 ≤ norm3 (s.Loc j - s.Loc i)) :
    (findCurrentAcc p s i).AccInt i =
      p.Gm • ∑ j in (Finset.range (p.N - 1)).erase i,
        (norm3 (s.Loc j - s.Loc i))⁻¹ • (s.Loc j - s.Loc i) := by
  rw [findCurrentAcc_out p s i hout]
  show Function.update s.AccInt i _ i = _
  rw [Function.update_same, scanBodies_snd]
  have hsum : ∑ j in Finset.range (p.N - 1),
      (if j ≠ i ∧ ¬ norm3 (s.Loc j - s.Loc i) < p.SmallDiam ^ 3 then
        divV (s.Loc j - s.Loc i) (0.001 * norm3 (s.Loc j - s.Loc i)) else 0) =
      ∑ j in (Finset.range (p.N - 1)).erase i,
        divV (s.Loc j - s.Loc i) (0.001 * norm3 (s.Loc j - s.Loc i)) := by
    rw [← Finset.sum_filter]
    apply Finset.sum_congr
    · ext j
      simp only [Finset.mem_filter, Finset.mem_erase, Finset.mem_range]
      constructor
      · rintro ⟨hj, hji, _⟩
        exact ⟨hji, hj⟩
      · rintro ⟨hji, hj⟩
        exact ⟨hj, hji, not_lt.mpr (hfar j hj hji)⟩
    · intro _ _
      rfl
  rw [hsum, Finset.smul_sum, Finset.smul_sum, Finset.smul_sum]
  apply Finset.sum_congr rfl
  intro j hj
  rw [Finset.mem_erase, Finset.mem_range] at hj
  have hpos : 0 < norm3 (s.Loc j - s.Loc i) :=
    lt_of_lt_of_le (pow_pos hS 3) (hfar j hj.2 hj.1)
  have ha : norm3 (s.Loc j - s.Loc i) ≠ 0 := ne_of_gt hpos
  rw [divV_eq_smul, smul_smul, smul_smul, smul_smul]
  congr 1
  rw [mul_inv]
  field_simp
  ring

/-- Witness for C1: the amended internal-acceleration formula instantiated
on the three-body configuration (in which body 1 is settled but still
contributes, and body 2 is never scanned). -/
theorem C1_witness :
    (findCurrentAcc pC sC 0).AccInt 0 =
      pC.Gm • ∑ j in (Finset.range (pC.N - 1)).erase 0,
        (norm3 (sC.Loc j - sC.Loc 0))⁻¹ • (sC.Loc j - sC.Loc 0) :=
  C1_theorem pC sC 0 (by norm_num [pC]) houtC hfarC

lemma scanC_snd : (scanBodies pC sC.Loc 0).2 = divV ((0 : ℝ), 3, 0) (0.001 * 27) := by
  unfold scanBodies
  rw [show List.range (pC.N - 1) = [0, 1] from rfl]
  rw [List.foldl_cons, List.foldl_cons, List.foldl_nil]
  rw [show scanStep pC sC.Loc 0 (false, 0) 0 = (false, 0) from rfl]
  simp only [scanStep]
  rw [if_pos (by norm_num : (1 : ℕ) ≠ 0)]
  rw [hsubC1, norm3_eval 0 3 0 3 (by norm_num) (by norm_num)]
  rw [if_neg (by norm_num [pC] : ¬ (3 : ℝ) ^ 3 < pC.SmallDiam ^ 3)]
  norm_num

lemma evalC_AccInt : (findCurrentAcc pC sC 0).AccInt 0 = (0, 1 / 9, 0) := by
  rw [findCurrentAcc_out pC sC 0 houtC]
  show Function.update sC.AccInt 0 _ 0 = _
  rw [Function.update_same, scanC_snd]
  norm_num [pC, divV_eval, vec_smul_eval, Prod.ext_iff]

/-- C1: at the three-body configuration in which body 1 is settled (and in
collision range of nobody) while body 2 is active and far away, the
internal acceleration computed for body 0 is not `Gm` times the sum of
`r/|r|^3` over the other active bodies: the code sums over the scanned
indices `j < N - 1` irrespective of the settled flag, so settled body 1
contributes and active body 2 does not. -/
theorem C1_counterexample :
    (findCurrentAcc pC sC 0).AccInt 0 ≠
      pC.Gm • ∑ j in ((Finset.range pC.N).erase 0).filter
          (fun j => sC.hasFallen j = false),
        (norm3 (sC.Loc j - sC.Loc 0))⁻¹ • (sC.Loc j - sC.Loc 0) := by
  have hset : ((Finset.range pC.N).erase 0).filter
      (fun j => sC.hasFallen j = false) = {2} := by decide
  rw [evalC_AccInt, hset, Finset.sum_singleton, hsubC2,
    norm3_eval 0 10 0 10 (by norm_num) (by norm_num)]
  norm_num [pC, vec_smul_eval, Prod.ext_iff]

lemma houtF : norm3 (pF.HeavyMassLoc - sF.Loc 0) ≥ pF.LargeRadius ^ 3 := by
  have harg : pF.HeavyMassLoc - sF.Loc 0 = ((0 : ℝ), -10, 0) := by
    norm_num [pF, sF, vec_sub_eval]
  rw [harg, norm3_eval 0 (-10) 0 10 (by norm_num) (by norm_num)]
  norm_num [pF]

lemma hsubF : sF.Loc 1 - sF.Loc 0 = ((0 : ℝ), 1, 0) := by
  norm_num [sF, vec_sub_eval]

/-- C7: at the two-body configuration in which the active last body lies
within the collision diameter of body 0, the computed contact flag of body
0 is false even though an active body is in range: the claimed equivalence
between the flag and the presence of a nearby active body fails (the
pairwise scan never reaches index `N - 1`). -/
theorem C7_counterexample :
    ¬ (((findCurrentAcc pF sF 0).isInContact 0 = true) ↔
      ∃ j, j < pF.N ∧ j ≠ 0 ∧ sF.hasFallen j = false ∧
        norm3 (sF.Loc j - sF.Loc 0) < pF.SmallDiam ^ 3) := by
  intro h
  have hflag : (findCurrentAcc pF sF 0).isInContact 0 = false := by
    rw [findCurrentAcc_out pF sF 0 houtF]
    show Function.update sF.isInContact 0 _ 0 = _
    rw [Function.update_same]
    rfl
  have hex : ∃ j, j < pF.N ∧ j ≠ 0 ∧ sF.hasFallen j = false ∧
      norm3 (sF.Loc j - sF.Loc 0) < pF.SmallDiam ^ 3 := by
    refine ⟨1, by norm_num [pF], by norm_num, rfl, ?_⟩
    rw [hsubF, norm3_eval 0 1 0 1 (by norm_num) (by norm_num)]
    norm_num [pF]
  have := h.mpr hex
  rw [hflag] at this
  exact Bool.false_ne_true this

/-- C7 (amended): for a body outside the central radius, the contact flag
after the force pass is true exactly when some scanned body (`j < N - 1`,
`j ≠ i`, settled or not) lies within the collision diameter, and the
internal-acceleration accumulator sums only the scanned bodies outside the
collision diameter (in-range bodies are excluded from the sum). -/
theorem C7_theorem (p : Params) (s : State) (i : ℕ)
    (hout : norm3 (p.HeavyMassLoc - s.Loc i) ≥ p.LargeRadius ^ 3) :
    ((findCurrentAcc p s i).isInContact i = true ↔
      ∃ j, j < p.N - 1 ∧ j ≠ i ∧
        norm3 (s.Loc j - s.Loc i) < p.SmallDiam ^ 3) ∧
    (findCurrentAcc p s i).AccInt i =
      (0.001 : ℝ) • (p.Gm • ∑ j in Finset.range (p.N - 1),
        (if j ≠ i ∧ ¬ norm3 (s.Loc j - s.Loc i) < p.SmallDiam ^ 3 then
          divV (s.Loc j - s.Loc i) (0.001 * norm3 (s.Loc j - s.Loc i))
        else 0)) := by
  rw [findCurrentAcc_out p s i hout]
  constructor
  · show Function.update s.isInContact i (scanBodies p s.Loc i).1 i = true ↔ _
    rw [Function.update_same]
    exact scanBodies_fst p s.Loc i
  · show Function.update s.AccInt i _ i = _
    rw [Function.update_same, scanBodies_snd]

lemma houtE (v : Vec3) : norm3 v ≥ pE.LargeRadius ^ 3 := by
  rw [show pE.LargeRadius = (0 : ℝ) from rfl, show ((0 : ℝ)) ^ 3 = 0 by norm_num]
  exact norm3_nonneg v

lemma integ_slots_ne (p : Params) (st : State) {j i : ℕ} (h : j ≠ i) :
    slots (findNextVel p (findNextLoc p st j) j) i = slots st i := by
  simp [slots, findNextVel, findNextLoc, Function.update_noteq (Ne.symm h)]

lemma findNextVel_VelInt_self (p : Params) (st : State) (i : ℕ) :
    (findNextVel p st i).VelInt i =
      if st.isInContact i = true then
        p.VelDecreaseFactor • (st.VelInt i + p.dt • st.AccInt i)
      else st.VelInt i + p.dt • st.AccInt i := by
  simp [findNextVel, Function.update_same]

lemma hsubE10 : sE.Loc 1 - sE.Loc 0 = ((0 : ℝ), 11, 0) := by
  norm_num [sE, vec_sub_eval]

lemma evalE0_AccRad : (findCurrentAcc pE sE 0).AccRad 0 = 0 := by
  rw [findCurrentAcc_out pE sE 0 (houtE _)]
  show Function.update sE.AccRad 0 _ 0 = _
  rw [Function.update_same, show pE.GM = (0 : ℝ) from rfl]
  simp

lemma evalE0_AccInt : (findCurrentAcc pE sE 0).AccInt 0 = 0 := by
  rw [findCurrentAcc_out pE sE 0 (houtE _)]
  show Function.update sE.AccInt 0 _ 0 = _
  rw [Function.update_same, show pE.Gm = (0 : ℝ) from rfl]
  simp

lemma evalE0_contact : (findCurrentAcc pE sE 0).isInContact 0 = false := by
  rw [findCurrentAcc_out pE sE 0 (houtE _)]
  show Function.update sE.isInContact 0 _ 0 = _
  rw [Function.update_same]
  have hnot : ¬ ((scanBodies pE sE.Loc 0).1 = true) := by
    rw [scanBodies_fst]
    rintro ⟨j, hj, hj0, hc⟩
    have hj2 : j < 2 := hj
    interval_cases j
    · exact hj0 rfl
    · rw [hsubE10, norm3_eval 0 11 0 11 (by norm_num) (by norm_num)] at hc
      norm_num [pE] at hc
  exact Bool.eq_false_iff.mpr hnot

lemma evalE_s1_Loc : (stepBody pE sE 0).Loc 0 = ((0 : ℝ), 10, 0) := by
  obtain ⟨hLoc, _, _, _, _⟩ := stepBody_eqs pE sE 0 rfl
  rw [hLoc, evalE0_AccRad, evalE0_AccInt]
  norm_num [pE, sE, vec_zero_eval, vec_add_eval, vec_smul_eval, Prod.ext_iff]

lemma evalE_s1_b1 : slots (stepBody pE sE 0) 1 = slots sE 1 :=
  stepBody_slots_ne pE sE (by norm_num)

lemma evalE1_contact :
    (findCurrentAcc pE (stepBody pE sE 0) 1).isInContact 1 = true := by
  rw [findCurrentAcc_out pE _ 1 (houtE _)]
  show Function.update (stepBody pE sE 0).isInContact 1 _ 1 = _
  rw [Function.update_same]
  refine (scanBodies_fst pE _ 1).mpr ⟨0, by norm_num [pE], by norm_num, ?_⟩
  have hb1 : (stepBody pE sE 0).Loc 1 = ((0 : ℝ), 11, 0) := by
    rw [(slots_eq_iff.mp evalE_s1_b1).1]
    norm_num [sE]
  rw [evalE_s1_Loc, hb1, show (((0 : ℝ), 10, 0) : Vec3) - (((0 : ℝ), 11, 0) : Vec3) =
    (((0 : ℝ), -1, 0) : Vec3) by norm_num [vec_sub_eval],
    norm3_eval 0 (-1) 0 1 (by norm_num) (by norm_num)]
  norm_num [pE]

lemma evalE1_AccInt :
    (findCurrentAcc pE (stepBody pE sE 0) 1).AccInt 1 = 0 := by
  rw [findCurrentAcc_out pE _ 1 (houtE _)]
  show Function.update (stepBody pE sE 0).AccInt 1 _ 1 = _
  rw [Function.update_same, show pE.Gm = (0 : ℝ) from rfl]
  simp

lemma evalE_seq : (frameStep pE sE).VelInt 1 = ((0 : ℝ), 0.95, 0) := by
  have hframe : frameStep pE sE = stepBody pE (stepBody pE sE 0) 1 := by
    unfold frameStep
    rw [show List.range (pE.N - 1) = [0, 1] from rfl]
    rfl
  rw [hframe]
  have hf1 : (stepBody pE sE 0).hasFallen 1 = false := by
    rw [(slots_eq_iff.mp evalE_s1_b1).2.2.2.2.2.2]
    rfl
  obtain ⟨_, _, hVI, _, _⟩ := stepBody_eqs pE (stepBody pE sE 0) 1 hf1
  rw [hVI, evalE1_contact, evalE1_AccInt, if_pos rfl]
  have hv : (stepBody pE sE 0).VelInt 1 = ((0 : ℝ), 1, 0) := by
    rw [(slots_eq_iff.mp evalE_s1_b1).2.2.1]
    norm_num [sE]
  rw [hv]
  norm_num [pE, vec_zero_eval, vec_add_eval, vec_smul_eval, Prod.ext_iff]

lemma evalEP_contact :
    (findCurrentAcc pE (findCurrentAcc pE sE 0) 1).isInContact 1 = false := by
  rw [findCurrentAcc_out pE _ 1 (houtE _)]
  show Function.update (findCurrentAcc pE sE 0).isInContact 1 _ 1 = _
  rw [Function.update_same, findCurrentAcc_Loc]
  have hnot : ¬ ((scanBodies pE sE.Loc 1).1 = true) := by
    rw [scanBodies_fst]
    rintro ⟨j, hj, hj1, hc⟩
    have hj2 : j < 2 := hj
    interval_cases j
    · rw [show sE.Loc 0 - sE.Loc 1 = ((0 : ℝ), -11, 0) by
        norm_num [sE, vec_sub_eval],
        norm3_eval 0 (-11) 0 11 (by norm_num) (by norm_num)] at hc
      norm_num [pE] at hc
    · exact hj1 rfl
  exact Bool.eq_false_iff.mpr hnot

lemma evalEP_AccInt :
    (findCurrentAcc pE (findCurrentAcc pE sE 0) 1).AccInt 1 = 0 := by
  rw [findCurrentAcc_out pE _ 1 (houtE _)]
  show Function.update (findCurrentAcc pE sE 0).AccInt 1 _ 1 = _
  rw [Function.update_same, show pE.Gm = (0 : ℝ) from rfl]
  simp

lemma evalE_tp : (twoPhaseFrameStep pE sE).VelInt 1 = ((0 : ℝ), 1, 0) := by
  unfold twoPhaseFrameStep
  rw [show List.range (pE.N - 1) = [0, 1] from rfl]
  simp only [List.foldl_cons, List.foldl_nil,
    show sE.hasFallen 0 = false from rfl, show sE.hasFallen 1 = false from rfl,
    eq_self_iff_true, if_true]
  have hQ := slots_eq_iff.mp
    (integ_slots_ne pE (findCurrentAcc pE (findCurrentAcc pE sE 0) 1)
      (show (0 : ℕ) ≠ 1 by norm_num))
  rw [findNextVel_VelInt_self, findNextLoc_isInContact, findNextLoc_VelInt,
    findNextLoc_AccInt, hQ.2.2.2.2.2.1, hQ.2.2.1, hQ.2.2.2.2.1,
    evalEP_contact, evalEP_AccInt, findCurrentAcc_VelInt, findCurrentAcc_VelInt]
  simp only [Bool.false_eq_true, if_false]
  norm_num [sE, vec_zero_eval, vec_add_eval, vec_smul_eval, Prod.ext_iff]

/-- C6: the sequential per-body force-then-integrate loop of the driver is
not equivalent to the two-phase (all forces from frame-start positions,
then all integrations) reference: in the concrete three-body frame, body 0
moves into collision range of body 1 during the frame, so body 1's contact
flag and damped internal velocity differ between the two schedules. -/
theorem C6_counterexample : frameStep pE sE ≠ twoPhaseFrameStep pE sE := by
  intro h
  have h1 := evalE_seq
  rw [h, evalE_tp] at h1
  norm_num [Prod.ext_iff] at h1

/-- C6 (amended): the sequential loop coincides with the two-phase
stage-barrier reference only when at most one body is processed
(`N ≤ 2`, so the driver's body loop has at most one iteration); with two
or more processed bodies a later body's force pass can read an
earlier body's already-updated position. -/
theorem C6_theorem (p : Params) (s : State) (hN : p.N ≤ 2) :
    frameStep p s = twoPhaseFrameStep p s := by
  unfold frameStep twoPhaseFrameStep
  rcases Nat.lt_or_ge p.N 2 with h | h
  · have h0 : p.N - 1 = 0 := by omega
    rw [h0]
    rfl
  · have h0 : p.N - 1 = 1 := by omega
    rw [h0, show List.range 1 = [0] from rfl]
    simp only [List.foldl_cons, List.foldl_nil]
    unfold stepBody
    by_cases hf : s.hasFallen 0 = false
    · rw [if_pos hf, if_pos hf, if_pos hf]
    · rw [if_neg hf, if_neg hf, if_neg hf]

/-- Witness for C6: the amended equivalence instantiated on the two-body
configuration (one processed body). -/
theorem C6_witness : pB.N ≤ 2 ∧ frameStep pB sB = twoPhaseFrameStep pB sB :=
  ⟨by norm_num [pB], C6_theorem pB sB (by norm_num [pB])⟩

/-- Witness for C7: the amended contact/accumulator characterization
instantiated on the two-body configuration. -/
theorem C7_witness :
    ((findCurrentAcc pF sF 0).isInContact 0 = true ↔
      ∃ j, j < pF.N - 1 ∧ j ≠ 0 ∧
        norm3 (sF.Loc j - sF.Loc 0) < pF.SmallDiam ^ 3) ∧
    (findCurrentAcc pF sF 0).AccInt 0 =
      (0.001 : ℝ) • (pF.Gm • ∑ j in Finset.range (pF.N - 1),
        (if j ≠ 0 ∧ ¬ norm3 (sF.Loc j - sF.Loc 0) < pF.SmallDiam ^ 3 then
          divV (sF.Loc j - sF.Loc 0) (0.001 * norm3 (sF.Loc j - sF.Loc 0))
        else 0)) :=
  C7_theorem pF sF 0 houtF

end NBody
